import Mathlib

/-!
# Verification of the carbon-aware serverless scheduler

Shallow embedding, in Lean 4, of the core of the carbon-aware scheduling and
dispatch system (planner, region selection and energy model in
`src/agent/gcp_deploy/agent.py` and `src/agent/config_loader.py`, dispatcher in
`src/dispatcher/dispatcher.py`), together with theorems settling the frozen
claims about this code.

Modelling conventions:
* Instants (UTC datetimes) are integers: minutes since an arbitrary epoch for
  the dispatcher, seconds since an arbitrary epoch for the planner timestamps.
* Python floats are embedded as rationals.
* Python `list.sort` and `sorted` are stable sorts; they are modelled by the
  structural stable insertion sort `pysort` below.
* Fallible code (uncaught Python exceptions) is modelled with `Option` and
  `Except`.
* External effectful collaborators (object store reads, the LLM, `hashlib`)
  enter as explicit parameters: a storage read result, the LLM response
  string together with an abstract JSON parse function, and an abstract
  hash primitive `sha : String → String`.
-/

namespace CarbonSched

/-! ## A stable sort

Python `list.sort(key=...)` and `sorted(...)` are stable sorts. We model them
by insertion sort: `insort le x l` places `x` in front of the first element
`y` of `l` with `le x y`, which preserves the relative order of elements that
compare equal. -/


/-- Insert `x` into `l` in front of the first element `y` with `le x y`. -/
def insort (le : α → α → Bool) (x : α) : List α → List α
  | [] => [x]
  | y :: ys => if le x y then x :: y :: ys else y :: insort le x ys

/-- Stable insertion sort, modelling Python `list.sort` / `sorted`. -/
def pysort (le : α → α → Bool) : List α → List α
  | [] => []
  | x :: xs => insort le x (pysort le xs)

/-! ## Python string primitives

Python compares strings lexicographically by code point and `str.lower`
lowercases characterwise (modelled for the ASCII range, which covers every
string the dispatcher compares). -/


/-- Lexicographic less-or-equal on code-point lists, as Python compares
strings. -/
def charLeAux : List Char → List Char → Bool
  | [], _ => true
  | _ :: _, [] => false
  | a :: as, b :: bs => if a < b then true else if b < a then false else charLeAux as bs

/-- Python string less-or-equal. -/
def strLe (a b : String) : Bool := charLeAux a.data b.data

/-- ASCII lowercase for one character, as `str.lower` acts on the ASCII
range. -/
def pyLowerChar (c : Char) : Char :=
  if 65 ≤ c.toNat ∧ c.toNat ≤ 90 then Char.ofNat (c.toNat + 32) else c

/-- Python `str.lower`, modelled on the ASCII range. -/
def pyLower (s : String) : String := String.mk (s.data.map pyLowerChar)

/-! ## Dispatcher (`src/dispatcher/dispatcher.py`)

Datetimes are minutes since an arbitrary epoch. A stored datetime string is
modelled by its wall-clock value together with its optional UTC offset
(`tz = none` for a naive string); `datetime.fromisoformat` then yields exactly
this data. Loading `schedule_<fn>` is modelled by a parameter
`sched : Option (List RawRec)`: `none` stands for every failure mode in which
no `recommendations` list is obtained (file or blob missing, the local
loader's `{}` fallback followed by the `KeyError`, malformed JSON). -/


/-- Wall-clock datetime with optional UTC offset, the result of
`datetime.fromisoformat` on an ISO-8601 string. `wall` is in minutes, `tz` is
the offset in minutes (`none` when the string carries no offset). -/
structure IsoDt where
  wall : Int
  tz : Option Int
deriving DecidableEq, Repr

/-- Embeds `normalize_to_utc` (dispatcher.py line 86): a naive datetime is
assumed to be UTC, an aware one is converted with `astimezone`, which
subtracts the offset. Returns the absolute instant in minutes. -/
def normalize_to_utc (d : IsoDt) : Int :=
  match d.tz with
  | none => d.wall
  | some off => d.wall - off

/-- Truncation of an instant to the start of its hour:
`replace(minute=0, second=0, microsecond=0)` at minute resolution. -/
def truncHour (t : Int) : Int := t - t.emod 60

/-- One element of the stored `recommendations` array, before datetime
normalization. Fields beyond those the dispatcher reads are omitted;
`function_url` is optional because it is only injected after deployment. -/
structure RawRec where
  datetime : IsoDt
  priority : Int
  region : String
  carbon_intensity : Int
  function_url : Option String
deriving DecidableEq, Repr

/-- A recommendation after its `datetime` has been normalized to a UTC
instant (minutes). -/
structure Rec where
  datetime : Int
  priority : Int
  region : String
  carbon_intensity : Int
  function_url : Option String
deriving DecidableEq, Repr

/-- Normalization of one recommendation record, as the loop in
`filter_schedule` rewrites `rec["datetime"]` in place. -/
def normRec (r : RawRec) : Rec :=
  { datetime := normalize_to_utc r.datetime
    priority := r.priority
    region := r.region
    carbon_intensity := r.carbon_intensity
    function_url := r.function_url }

/-- Sort key for `recommendations.sort(key=lambda r: r["datetime"])`. -/
def dtLE (a b : Rec) : Bool := a.datetime ≤ b.datetime

/-- Sort key for `filtered_recommendations.sort(key=lambda r: r["priority"])`. -/
def priLE (a b : Rec) : Bool := a.priority ≤ b.priority

/-- Filter predicate of dispatcher.py line 110: slot at or before the
deadline and not before the start of the current hour. -/
def slotPred (deadline now : Int) (r : Rec) : Bool :=
  decide (r.datetime ≤ deadline) && decide (truncHour now ≤ r.datetime)

/-- Embeds `filter_schedule` (dispatcher.py lines 96 to 118). `none` models
an uncaught exception (missing schedule or empty recommendations list). -/
def filter_schedule (sched : Option (List RawRec)) (deadline now : Int) :
    Option Rec :=
  match sched with
  | none => none
  | some recs =>
    match pysort dtLE (recs.map normRec) with
    | [] => none
    | r :: rest =>
      if deadline < r.datetime then some { r with datetime := deadline }
      else
        match pysort priLE ((r :: rest).filter (slotPred deadline now)) with
        | [] =>
          some { (r :: rest).getLast (List.cons_ne_nil r rest) with
                   datetime := truncHour deadline }
        | f :: _ => some f

/-- Result of `find_optimal_slot`: either a slot dict with its `delay` tag, or
the literal 404-shaped dict built in the clamped branch (which the caller then
treats as a slot). -/
inductive FindResult where
  | slot (r : Rec) (delay : String)
  | failedDict (msg : String)
deriving DecidableEq, Repr

/-- Embeds `find_optimal_slot` (dispatcher.py lines 120 to 137). An
`Except.error` is an exception propagating to the caller; only the clamped
branch catches exceptions, turning them into the 404-shaped dict. -/
def find_optimal_slot (sched : Option (List RawRec)) (deadline : Option Int)
    (now : Int) : Except Unit FindResult :=
  match deadline with
  | none =>
    match filter_schedule sched now now with
    | none => .error ()
    | some r => .ok (.slot r "false")
  | some d =>
    if d < now then
      match filter_schedule sched now now with
      | none => .ok (.failedDict "filter_schedule raised")
      | some r => .ok (.slot r "false")
    else
      match filter_schedule sched d now with
      | none => .error ()
      | some r => .ok (.slot r "true")

/-- HTTP-shaped responses the dispatcher handler can build. `error404` is the
shape of `schedule_function`'s final else branch. -/
inductive Response where
  | error400 (msg : String)
  | scheduled (delay : String) (target_region : String) (target_time : Int)
      (priority : Int) (carbon_intensity : Int) (function_url : String)
  | error404 (msg : String)
deriving DecidableEq, Repr

/-- Embeds `schedule_function` (dispatcher.py lines 200 to 226). Every
`FindResult` is a non-empty dict, hence truthy, so the 404 branch is never
taken; the accesses `slot["region"]` (on the 404-shaped dict) and
`slot["function_url"]` (when deployment never injected it) raise `KeyError`,
modelled as `Except.error`. -/
def schedule_function (r : FindResult) (_function_name : String) :
    Except Unit Response :=
  match r with
  | .slot rec delay =>
    match rec.function_url with
    | some url =>
      .ok (.scheduled delay rec.region rec.datetime rec.priority
             rec.carbon_intensity url)
    | none => .error ()
  | .failedDict _ => .error ()

/-- Incoming dispatch event. `deadline = none` means the key is absent,
`some none` a present string that `datetime.fromisoformat` rejects,
`some (some d)` a present well-formed ISO-8601 string. -/
structure Event where
  function_name : Option String
  delay : Option String
  deadline : Option (Option IsoDt)

/-- Embeds the deadline parse of the handler (dispatcher.py line 185):
`datetime.fromisoformat(s).replace(tzinfo=timezone.utc)` keeps the wall-clock
fields and discards any offset the string carried. -/
def handler_parse_deadline (d : IsoDt) : Int := d.wall

/-- Embeds `handler` (dispatcher.py lines 140 to 198). -/
def handler (ev : Event) (sched : Option (List RawRec)) (now : Int) :
    Except Unit Response :=
  match ev.function_name with
  | none => .ok (.error400 "Missing function_name")
  | some name =>
    if name = "" then .ok (.error400 "Missing function_name")
    else
      let delayStep : Option (Except Unit Response) :=
        match ev.delay with
        | some s =>
          if pyLower s = "false" then
            some (match find_optimal_slot sched none now with
                  | .ok r => schedule_function r name
                  | .error e => .error e)
          else if pyLower s = "true" then none
          else some (.ok (.error400 ("Delay must be true or false, but was " ++ s)))
        | none => none
      match delayStep with
      | some resp => resp
      | none =>
        match ev.deadline with
        | none => .ok (.error400 "Delay was true but no deadline was given")
        | some none => .ok (.error400 "Deadline has invalid format")
        | some (some d) =>
          match find_optimal_slot sched (some (handler_parse_deadline d)) now with
          | .ok r => schedule_function r name
          | .error e => .error e

/-! ## Planner data model (`src/agent/gcp_deploy/agent.py`)

Function metadata is modelled after `METADATA_DEFAULTS` (agent.py lines 52
to 65): the planner applies these defaults before any code below runs, so
every field is present and typed. Timestamps (`generated_at`, `created_at`,
`now`) are seconds since an arbitrary epoch; `datetime.isoformat` and
`datetime.fromisoformat` are inverse on valid data, so a stored timestamp is
modelled by its parsed instant, with `none` for a missing or unparseable
string. -/


/-- Resolved function metadata (after `apply_defaults`). -/
structure Metadata where
  runtime_ms : ℚ
  memory_mb : ℚ
  data_input_gb : ℚ
  data_output_gb : ℚ
  source_location : String
  invocations_per_day : ℚ
  priority : String
  latency_important : Bool
  gpu_required : Bool
  vcpus : Option Int
  allowed_regions : List String
  allow_schedule_caching : Bool
deriving DecidableEq, Repr

/-- Rendering of a JSON number value for the canonical metadata string. The
exact digits are irrelevant to the claims; what matters is that the rendering
is a function of the rational value. -/
def ratStr (q : ℚ) : String := toString q.num ++ "/" ++ toString q.den

/-- Rendering of a JSON boolean value. -/
def boolStr (b : Bool) : String := if b then "true" else "false"

/-- Rendering of the optional `vcpus` field (`null` when absent). -/
def optIntStr : Option Int → String
  | none => "null"
  | some n => toString n

/-- Rendering of a JSON string value. -/
def strQuote (s : String) : String := "\"" ++ s ++ "\""

/-- Rendering of a JSON array of strings. -/
def strListStr (l : List String) : String :=
  "[" ++ String.intercalate ", " (l.map strQuote) ++ "]"

/-- Embeds `compute_metadata_hash` (agent.py lines 148 to 179): the SHA-256
hash of `json.dumps(relevant_fields, sort_keys=True)`, where the relevant
fields exclude `allow_schedule_caching` and hold `allowed_regions` sorted.
The keys below appear in the sorted order `json.dumps` emits; `sha` stands
for `hashlib.sha256(...).hexdigest()`. -/
def compute_metadata_hash (sha : String → String) (m : Metadata) : String :=
  sha ("\x7b\"allowed_regions\": " ++ strListStr (pysort strLe m.allowed_regions)
    ++ ", \"data_input_gb\": " ++ ratStr m.data_input_gb
    ++ ", \"data_output_gb\": " ++ ratStr m.data_output_gb
    ++ ", \"gpu_required\": " ++ boolStr m.gpu_required
    ++ ", \"invocations_per_day\": " ++ ratStr m.invocations_per_day
    ++ ", \"latency_important\": " ++ boolStr m.latency_important
    ++ ", \"memory_mb\": " ++ ratStr m.memory_mb
    ++ ", \"priority\": " ++ strQuote m.priority
    ++ ", \"runtime_ms\": " ++ ratStr m.runtime_ms
    ++ ", \"source_location\": " ++ strQuote m.source_location
    ++ ", \"vcpus\": " ++ optIntStr m.vcpus
    ++ "\x7d")

/-- Metadata shared by the concrete witnesses below. -/
def demoMetadata : Metadata :=
  { runtime_ms := 1000
    memory_mb := 512
    data_input_gb := 1
    data_output_gb := 0
    source_location := "us-east1"
    invocations_per_day := 1
    priority := "balanced"
    latency_important := false
    gpu_required := false
    vcpus := none
    allowed_regions := ["europe-west1", "europe-north1"]
    allow_schedule_caching := true }

/-- Datetime of a schedule recommendation, the parsed form of its
"YYYY-MM-DD HH:MM" string: the calendar date (days since an arbitrary epoch)
and the time of day (minutes). -/
structure DayTime where
  date : Int
  tod : Int
deriving DecidableEq, Repr

/-- One recommendation of a persisted schedule. -/
structure Recommendation where
  datetime : DayTime
  region : String
  carbon_intensity : Int
  transfer_cost_usd : ℚ
  emissions_grams : ℚ
  priority : Int
  reasoning : String
  function_url : Option String
deriving DecidableEq, Repr

/-- The `metadata` block of a persisted schedule. `metadata_hash` and
`created_at` are optional because the cache check reads them with `.get`;
`created_at = none` also stands for an unparseable timestamp string, which
the cache check treats the same way. -/
structure SchedMeta where
  generated_at : Int
  function_metadata : Metadata
  regions_used : List String
  metadata_hash : Option String
  created_at : Option Int
deriving DecidableEq, Repr

/-- A persisted `schedule_<fn>.json` document. `metadata = none` models a
document without a `metadata` key (`.get("metadata", {})` then yields the
empty dict). -/
structure Schedule where
  recommendations : List Recommendation
  metadata : Option SchedMeta
deriving DecidableEq, Repr

/-- Embeds `MAX_FORECAST_AGE_DAYS` (agent.py line 40). -/
def MAX_FORECAST_AGE_DAYS : Int := 7

/-- Embeds `is_cached_schedule_valid` (agent.py lines 1130 to 1189).
`stored` is the outcome of `read_from_storage` on `schedule_<fn>.json`
(`none` for `FileNotFoundError` and for any other read error, both of which
the source maps to an invalid cache). `(now - created).fdiv 86400` is
Python's `(datetime.now() - created_at).days`, the floor of the age in
days. -/
def is_cached_schedule_valid (sha : String → String) (function_name : String)
    (function_metadata : Metadata) (stored : Option Schedule) (now : Int) :
    Bool × Option Schedule × Option String :=
  if ¬ function_metadata.allow_schedule_caching then (false, none, none)
  else
    match stored with
    | none => (false, none, none)
    | some cached_schedule =>
      let current_hash := compute_metadata_hash sha function_metadata
      let cached_hash := cached_schedule.metadata.bind (fun m => m.metadata_hash)
      if cached_hash ≠ some current_hash then (false, none, none)
      else
        match cached_schedule.metadata.bind (fun m => m.created_at) with
        | none => (false, none, none)
        | some created_at =>
          let age_days := (now - created_at).fdiv 86400
          if age_days > MAX_FORECAST_AGE_DAYS then (false, none, none)
          else (true, some cached_schedule,
                some ("schedule_" ++ function_name ++ ".json"))

/-- Schedule used by the C3 counterexample: hash matching under the constant
hash function, created at instant 0. -/
def demoCachedSchedule : Schedule :=
  { recommendations := []
    metadata := some
      { generated_at := 0
        function_metadata := demoMetadata
        regions_used := []
        metadata_hash := some "H"
        created_at := some 0 } }

/-- Embeds the cache-hit refresh of `run_scheduler` (agent.py lines 1319 to
1351 and, identically, 1462 to 1494): every recommendation datetime is parsed
with `strptime("%Y-%m-%d %H:%M")` and recombined as
`datetime.combine(today, original.time())`, and `metadata["generated_at"]` is
set to now. `none` models the `KeyError` on a schedule without a `metadata`
key (unreachable after a cache hit, which has read the metadata hash). -/
def refresh_cached_schedule (sched : Schedule) (today : Int) (now : Int) :
    Option Schedule :=
  match sched.metadata with
  | none => none
  | some m =>
    some { recommendations :=
             sched.recommendations.map
               (fun r => { r with datetime := ⟨today, r.datetime.tod⟩ })
           metadata := some { m with generated_at := now } }

/-- Recommendation list shared by the C8 witness and the C1 counterexample:
three entries whose priorities are not the permutation 1..24. -/
def demoRecommendations : List Recommendation :=
  [ { datetime := ⟨10, 300⟩, region := "europe-west1", carbon_intensity := 120
      transfer_cost_usd := 0, emissions_grams := 2, priority := 1
      reasoning := "low carbon", function_url := none }
  , { datetime := ⟨10, 360⟩, region := "europe-north1", carbon_intensity := 90
      transfer_cost_usd := 1, emissions_grams := 1, priority := 1
      reasoning := "lowest carbon", function_url := none }
  , { datetime := ⟨10, 420⟩, region := "us-east1", carbon_intensity := 400
      transfer_cost_usd := 0, emissions_grams := 5, priority := 7
      reasoning := "fallback", function_url := none } ]

/-! ## LLM ranking and schedule persistence (C1)

The object store is an association list from blob name to schedule; a write
prepends, a read takes the first binding, so a write shadows the previous
schedule and a failed run leaves the store untouched. The Gemini call
produces a response string; `json.loads` enters as the abstract parameter
`parse`, returning `none` exactly when it raises `JSONDecodeError`. -/


/-- Object store content, newest binding first. -/
abbrev Store := List (String × Schedule)

/-- Embeds `write_to_storage` for schedule documents. -/
def write_to_storage (store : Store) (blob_name : String) (s : Schedule) :
    Store :=
  (blob_name, s) :: store

/-- Embeds the fence stripping of `_generate_with_gemini` (agent.py lines
794 to 804). -/
def strip_markdown_fences (s : String) : String :=
  let t0 := s.trim
  let t1 := if t0.startsWith "```json" then t0.drop 7 else t0
  let t2 := if t1.startsWith "```" then t1.drop 3 else t1
  let t3 := if t2.endsWith "```" then t2.dropRight 3 else t2
  t3.trim

/-- Embeds `_generate_with_gemini` (agent.py lines 782 to 811): strip fences,
then `json.loads`; a parse failure propagates as an exception (`none`). No
further validation of the parsed document happens anywhere downstream. -/
def generate_with_gemini (parse : String → Option Schedule)
    (response_text : String) : Option Schedule :=
  parse (strip_markdown_fences response_text)

/-- Embeds `run_scheduler_for_function` (agent.py lines 1192 to 1221): attach
the metadata block to whatever document the LLM response parsed to, then
persist it as `schedule_<fn>.json`. `none` is the exception path: nothing is
written. -/
def run_scheduler_for_function (sha : String → String)
    (parse : String → Option Schedule) (response_text : String)
    (function_name : String) (function_metadata : Metadata)
    (regions_used : List String) (metadata_hash : Option String) (now : Int)
    (store : Store) : Option (Schedule × Store) :=
  match generate_with_gemini parse response_text with
  | none => none
  | some schedule =>
    let s' : Schedule :=
      { recommendations := schedule.recommendations
        metadata := some
          { generated_at := now
            function_metadata := function_metadata
            regions_used := regions_used
            metadata_hash := some (match metadata_hash with
              | some h => h
              | none => compute_metadata_hash sha function_metadata)
            created_at := some now } }
    some (s', write_to_storage store ("schedule_" ++ function_name ++ ".json") s')

/-- Embeds the per-function loop body of `run_scheduler` (agent.py lines 1498
to 1517): an exception from `run_scheduler_for_function` is caught and the
store is left as it was. -/
def schedule_generation_step (sha : String → String)
    (parse : String → Option Schedule) (response_text : String)
    (function_name : String) (function_metadata : Metadata)
    (regions_used : List String) (metadata_hash : Option String) (now : Int)
    (store : Store) : Store :=
  match run_scheduler_for_function sha parse response_text function_name
      function_metadata regions_used metadata_hash now store with
  | none => store
  | some (_, store') => store'

/-- Document the C1 counterexample persists: three recommendations with
priorities 1, 1, 7, stamped with the metadata block. -/
def demoBadPersisted : Schedule :=
  { recommendations := demoRecommendations
    metadata := some
      { generated_at := 0
        function_metadata := demoMetadata
        regions_used := ["europe-west1"]
        metadata_hash := some "h0"
        created_at := some 0 } }

/-! ## Transfer cost and energy model (agent.py lines 488 to 596,
`config_loader.py` lines 42 to 73) -/


/-- Region entry of the static configuration, restricted to the field the
transfer cost model reads; a missing field models a region dict without the
key (the source reads it with `.get(..., 0.0)`). -/
structure RegionInfo where
  data_transfer_cost_per_gb_usd : Option ℚ
deriving DecidableEq, Repr

/-- The `power_constants` block of the static configuration. Every field the
energy model reads is optional, mirroring the `.get(key, default)` accesses.
`cpu_min_watts_per_vcpu` and `cpu_max_watts_per_vcpu` are the CCF-style
constants present in the deployed configuration and consumed by the separate
evaluation script `evaluation/final_metrics/calculate.py`; the planner's
energy model never reads them. -/
structure PowerConstants where
  cpu_watts_per_vcpu : Option ℚ
  cpu_utilization_factor : Option ℚ
  memory_watts_per_gib : Option ℚ
  gpu_tdp_watts : List (String × ℚ)
  gpu_utilization_factor : Option ℚ
  datacenter_pue : Option ℚ
  network_kwh_per_gb : Option ℚ
  cpu_min_watts_per_vcpu : Option ℚ
  cpu_max_watts_per_vcpu : Option ℚ
deriving DecidableEq, Repr

/-- Static configuration, restricted to what the modelled code reads. -/
structure StaticConfig where
  regions : List (String × RegionInfo)
  power_constants : PowerConstants
deriving DecidableEq, Repr

/-- Embeds `get_region_info` (agent.py lines 472 to 485): `regions.get(code,
{})`, the empty dict being the record with every field absent. -/
def get_region_info (region_code : String) (config : StaticConfig) : RegionInfo :=
  (config.regions.lookup region_code).getD ⟨none⟩

/-- Embeds `calculate_transfer_cost` (agent.py lines 488 to 516, identical in
`config_loader.py` lines 42 to 73). The guard keeps Python truthiness: an
empty `source_location` never matches. -/
def calculate_transfer_cost (region_code : String)
    (data_input_gb data_output_gb : ℚ) (source_location : String)
    (config : StaticConfig) : ℚ :=
  if source_location ≠ "" ∧ region_code = source_location then 0
  else
    (data_input_gb + data_output_gb) *
      ((get_region_info region_code config).data_transfer_cost_per_gb_usd.getD 0)

/-- Static configuration shared by the concrete witnesses: one region with a
transfer rate, CCF-style power constants alongside the single-watt ones. -/
def demoConfig : StaticConfig :=
  { regions := [("europe-west1", ⟨some (2 / 25)⟩)]
    power_constants :=
      { cpu_watts_per_vcpu := some (5 / 2)
        cpu_utilization_factor := some (1 / 2)
        memory_watts_per_gib := some (2 / 5)
        gpu_tdp_watts := [("nvidia-l4", 72)]
        gpu_utilization_factor := some (4 / 5)
        datacenter_pue := some (11 / 10)
        network_kwh_per_gb := some (1 / 500)
        cpu_min_watts_per_vcpu := some (71 / 100)
        cpu_max_watts_per_vcpu := some (426 / 100) } }

/-- Embeds the CPU power term of `calculate_emissions_per_execution`
(agent.py lines 564 to 567): `vcpus * cpu_watts_per_vcpu *
cpu_utilization_factor`, with the source defaults 2.5 W and 0.5. -/
def cpu_power_w (pc : PowerConstants) (vcpus : ℕ) : ℚ :=
  (vcpus : ℚ) * pc.cpu_watts_per_vcpu.getD (5 / 2) *
    pc.cpu_utilization_factor.getD (1 / 2)

/-- Embeds the memory power term (agent.py lines 569 to 571):
`(memory_mb / 1024) * memory_watts_per_gib`, default 0.4 W per GiB. -/
def memory_power_w (pc : PowerConstants) (memory_mb : ℚ) : ℚ :=
  (memory_mb / 1024) * pc.memory_watts_per_gib.getD (2 / 5)

/-- Embeds the GPU power term (agent.py lines 573 to 578). -/
def gpu_power_w (pc : PowerConstants) (gpu_count : ℕ) (gpu_type : String) : ℚ :=
  if gpu_count > 0 then
    (gpu_count : ℚ) * ((pc.gpu_tdp_watts.lookup gpu_type).getD 72) *
      pc.gpu_utilization_factor.getD (4 / 5)
  else 0

/-- Embeds the compute energy term (agent.py lines 558 to 583):
`(total_power_w * (runtime_s / 3600)) * datacenter_pue` with
`runtime_s = runtime_ms / 1000` and default PUE 1.1. -/
def compute_energy_kwh (pc : PowerConstants) (runtime_ms memory_mb : ℚ)
    (vcpus gpu_count : ℕ) (gpu_type : String) : ℚ :=
  ((cpu_power_w pc vcpus + memory_power_w pc memory_mb +
      gpu_power_w pc gpu_count gpu_type) * ((runtime_ms / 1000) / 3600)) *
    pc.datacenter_pue.getD (11 / 10)

/-- Embeds the transfer energy term (agent.py lines 585 to 588):
`(data_input_gb + data_output_gb) * network_kwh_per_gb`, default 0.002. -/
def transfer_energy_kwh (pc : PowerConstants)
    (data_input_gb data_output_gb : ℚ) : ℚ :=
  (data_input_gb + data_output_gb) * pc.network_kwh_per_gb.getD (1 / 500)

/-- Embeds `calculate_emissions_per_execution` (agent.py lines 519 to 596):
total energy times carbon intensity, in grams of CO2 per execution. -/
def calculate_emissions_per_execution (runtime_ms memory_mb data_input_gb
    data_output_gb carbon_intensity : ℚ) (config : StaticConfig)
    (vcpus gpu_count : ℕ) (gpu_type : String) : ℚ :=
  (compute_energy_kwh config.power_constants runtime_ms memory_mb vcpus
      gpu_count gpu_type +
    transfer_energy_kwh config.power_constants data_input_gb data_output_gb) *
    carbon_intensity

/-- Formula the claim asserts for the CPU power term, following its wording:
`vcpus × (cpu_min + cpu_util × (cpu_max − cpu_min))`, the CCF-style min/max
model. Stated only to be compared with the `cpu_power_w` the source
computes. -/
def cpu_power_w_ccf (vcpus : ℕ) (cpu_min cpu_max cpu_util : ℚ) : ℚ :=
  (vcpus : ℚ) * (cpu_min + cpu_util * (cpu_max - cpu_min))

theorem insort_perm (le : α → α → Bool) (x : α) (l : List α) :
    List.Perm (insort le x l) (x :: l) := by
  induction l with
  | nil => simp [insort]
  | cons y ys ih =>
    by_cases h : le x y = true
    · simp [insort, h]
    · have hf : le x y = false := by simpa using h
      simp only [insort, hf, Bool.false_eq_true, if_false]
      exact (ih.cons y).trans (List.Perm.swap x y ys)

theorem pysort_perm (le : α → α → Bool) (l : List α) :
    List.Perm (pysort le l) l := by
  induction l with
  | nil => simp [pysort]
  | cons x xs ih => exact (insort_perm le x (pysort le xs)).trans (ih.cons x)

theorem pysort_length (le : α → α → Bool) (l : List α) :
    (pysort le l).length = l.length :=
  (pysort_perm le l).length_eq

theorem mem_pysort {le : α → α → Bool} {l : List α} {a : α} :
    a ∈ pysort le l ↔ a ∈ l :=
  (pysort_perm le l).mem_iff

theorem insort_pairwise {le : α → α → Bool} {R : α → α → Prop}
    (htrans : ∀ a b c, R a b → R b c → R a c)
    (htotal : ∀ a b, le a b = false → R b a)
    (hle : ∀ a b, le a b = true → R a b)
    {x : α} {l : List α} (hl : l.Pairwise R) :
    (insort le x l).Pairwise R := by
  induction l with
  | nil => simp [insort]
  | cons y ys ih =>
    rcases List.pairwise_cons.mp hl with ⟨hy, hys⟩
    by_cases h : le x y = true
    · simp only [insort, h, if_true]
      refine List.pairwise_cons.mpr ⟨?_, hl⟩
      intro b hb
      rcases List.mem_cons.mp hb with rfl | hb
      · exact hle _ _ h
      · exact htrans x y b (hle _ _ h) (hy b hb)
    · have hf : le x y = false := by simpa using h
      simp only [insort, hf, Bool.false_eq_true, if_false]
      refine List.pairwise_cons.mpr ⟨?_, ih hys⟩
      intro b hb
      rcases List.mem_cons.mp ((insort_perm le x ys).mem_iff.mp hb) with hbx | hb
      · rw [hbx]; exact htotal x y hf
      · exact hy b hb

theorem pysort_pairwise (le : α → α → Bool)
    (htrans : ∀ a b c, le a b = true → le b c = true → le a c = true)
    (htotal : ∀ a b, (le a b || le b a) = true) (l : List α) :
    (pysort le l).Pairwise (fun a b => le a b = true) := by
  induction l with
  | nil => simp [pysort]
  | cons x xs ih =>
    refine insort_pairwise htrans ?_ (fun a b h => h) ih
    intro a b h
    have := htotal a b
    simp [h] at this
    exact this

/-- Heads of `pysort` pick out the FIRST minimum of the input list: the head
equals some element `l[i]` which is `le`-below every element, while every
element strictly before position `i` is strictly above it. This captures the
stability of the sort. -/
theorem pysort_head_first_min {le : α → α → Bool}
    (htrans : ∀ a b c, le a b = true → le b c = true → le a c = true)
    (htotal : ∀ a b, (le a b || le b a) = true) :
    ∀ {l : List α} {f : α} {rest : List α}, pysort le l = f :: rest →
      ∃ i : ℕ, ∃ hi : i < l.length, l[i] = f ∧
        (∀ j, ∀ hj : j < l.length, j < i → le l[j] f = false) ∧
        (∀ j, ∀ hj : j < l.length, le f l[j] = true) := by
  have hrefl : ∀ a, le a a = true := by
    intro a; have := htotal a a; simpa using this
  intro l
  induction l with
  | nil => intro f rest h; simp [pysort] at h
  | cons x xs ih =>
    intro f rest h
    rw [pysort] at h
    cases hxs : pysort le xs with
    | nil =>
      have hxsnil : xs = [] := by
        have hlen : xs.length = 0 := by rw [← pysort_length le xs, hxs]; rfl
        exact List.length_eq_zero.mp hlen
      subst hxsnil
      rw [hxs] at h
      simp only [insort] at h
      rw [List.cons.injEq] at h
      obtain ⟨rfl, rfl⟩ := h
      refine ⟨0, by simp, by simp, ?_, ?_⟩
      · intro j hj hj0; omega
      · intro j hj
        have hj0 : j = 0 := by simpa using hj
        subst hj0
        simpa using hrefl x
    | cons g gs =>
      rw [hxs] at h
      by_cases hxg : le x g = true
      · have hins : insort le x (g :: gs) = x :: g :: gs := by
          simp [insort, hxg]
        rw [hins, List.cons.injEq] at h
        obtain ⟨rfl, h2⟩ := h
        refine ⟨0, by simp, by simp, ?_, ?_⟩
        · intro j hj hj0; omega
        · intro j hj
          match j, hj with
          | 0, _ => simpa using hrefl x
          | k + 1, hj =>
            obtain ⟨i', hi', hg, _hfirst, hmin⟩ := ih hxs
            have hk : k < xs.length := by simpa using hj
            simp only [List.getElem_cons_succ]
            exact htrans x g xs[k] hxg (hmin k hk)
      · have hxgf : le x g = false := by simpa using hxg
        have hins : insort le x (g :: gs) = g :: insort le x gs := by
          simp [insort, hxgf]
        rw [hins, List.cons.injEq] at h
        obtain ⟨rfl, h2⟩ := h
        obtain ⟨i', hi', hg, hfirst, hmin⟩ := ih hxs
        refine ⟨i' + 1, by simp; omega, ?_, ?_, ?_⟩
        · simpa only [List.getElem_cons_succ] using hg
        · intro j hj hji
          match j, hj with
          | 0, _ =>
            simpa only [List.getElem_cons_zero] using hxgf
          | k + 1, hj =>
            simp only [List.getElem_cons_succ]
            exact hfirst k (by simpa using hj) (by omega)
        · intro j hj
          match j, hj with
          | 0, _ =>
            have := htotal x g
            rw [hxgf] at this
            simpa using this
          | k + 1, hj =>
            simp only [List.getElem_cons_succ]
            exact hmin k (by simpa using hj)

/-- Sorting is invariant under permutation of the input when the order is
antisymmetric; this is what makes canonicalisation by sorting well defined. -/
theorem pysort_eq_of_perm {le : α → α → Bool}
    (htrans : ∀ a b c, le a b = true → le b c = true → le a c = true)
    (htotal : ∀ a b, (le a b || le b a) = true)
    (hantisymm : ∀ a b, le a b = true → le b a = true → a = b)
    {l₁ l₂ : List α} (hp : List.Perm l₁ l₂) :
    pysort le l₁ = pysort le l₂ :=
  @List.eq_of_perm_of_sorted _ (fun a b => le a b = true) ⟨hantisymm⟩ _ _
    ((pysort_perm le l₁).trans (hp.trans (pysort_perm le l₂).symm))
    (pysort_pairwise le htrans htotal l₁)
    (pysort_pairwise le htrans htotal l₂)

theorem charLeAux_total : ∀ x y, (charLeAux x y || charLeAux y x) = true
  | [], _ => by simp [charLeAux]
  | _ :: _, [] => by simp [charLeAux]
  | a :: as, b :: bs => by
    by_cases h1 : a < b
    · simp [charLeAux, h1]
    · by_cases h2 : b < a
      · simp [charLeAux, h1, h2]
      · simpa [charLeAux, h1, h2] using charLeAux_total as bs

theorem charLeAux_trans :
    ∀ x y z, charLeAux x y = true → charLeAux y z = true → charLeAux x z = true
  | [], _, _ => by simp [charLeAux]
  | _ :: _, [], _ => by simp [charLeAux]
  | _ :: _, _ :: _, [] => by simp [charLeAux]
  | a :: as, b :: bs, c :: cs => by
    intro h1 h2
    by_cases hab : a < b
    · by_cases hbc : b < c
      · simp [charLeAux, lt_trans hab hbc]
      · by_cases hcb : c < b
        · simp [charLeAux, hbc, hcb] at h2
        · have hbceq : b = c := le_antisymm (not_lt.mp hcb) (not_lt.mp hbc)
          subst hbceq
          simp [charLeAux, hab]
    · by_cases hba : b < a
      · simp [charLeAux, hab, hba] at h1
      · have habq : a = b := le_antisymm (not_lt.mp hba) (not_lt.mp hab)
        subst habq
        by_cases hac : a < c
        · simp [charLeAux, hac]
        · by_cases hca : c < a
          · simp [charLeAux, hac, hca] at h2
          · have haceq : a = c := le_antisymm (not_lt.mp hca) (not_lt.mp hac)
            subst haceq
            simp [charLeAux, lt_irrefl] at h1 h2 ⊢
            exact charLeAux_trans as bs cs h1 h2

theorem charLeAux_antisymm :
    ∀ x y, charLeAux x y = true → charLeAux y x = true → x = y
  | [], [] => by intro _ _; rfl
  | [], _ :: _ => by intro _ h2; simp [charLeAux] at h2
  | _ :: _, [] => by intro h1 _; simp [charLeAux] at h1
  | a :: as, b :: bs => by
    intro h1 h2
    by_cases hab : a < b
    · simp [charLeAux, hab, lt_asymm hab] at h2
    · by_cases hba : b < a
      · simp [charLeAux, hab, hba] at h1
      · have heq : a = b := le_antisymm (not_lt.mp hba) (not_lt.mp hab)
        subst heq
        simp [charLeAux, lt_irrefl] at h1 h2
        rw [charLeAux_antisymm as bs h1 h2]

theorem strLe_total : ∀ a b : String, (strLe a b || strLe b a) = true :=
  fun a b => charLeAux_total a.data b.data

theorem strLe_trans :
    ∀ a b c : String, strLe a b = true → strLe b c = true → strLe a c = true :=
  fun a b c => charLeAux_trans a.data b.data c.data

theorem strLe_antisymm :
    ∀ a b : String, strLe a b = true → strLe b a = true → a = b := by
  intro a b h1 h2
  cases a with
  | mk da =>
    cases b with
    | mk db =>
      have : da = db := charLeAux_antisymm da db h1 h2
      rw [this]

theorem dtLE_trans : ∀ a b c : Rec, dtLE a b = true → dtLE b c = true → dtLE a c = true := by
  intro a b c h1 h2
  simp only [dtLE, decide_eq_true_eq] at h1 h2 ⊢
  omega

theorem dtLE_total : ∀ a b : Rec, (dtLE a b || dtLE b a) = true := by
  intro a b
  simp only [dtLE, Bool.or_eq_true, decide_eq_true_eq]
  omega

theorem priLE_trans : ∀ a b c : Rec, priLE a b = true → priLE b c = true → priLE a c = true := by
  intro a b c h1 h2
  simp only [priLE, decide_eq_true_eq] at h1 h2 ⊢
  omega

theorem priLE_total : ∀ a b : Rec, (priLE a b || priLE b a) = true := by
  intro a b
  simp only [priLE, Bool.or_eq_true, decide_eq_true_eq]
  omega

/-- C2: for every loaded schedule and every UTC deadline, the slot selection
of `filter_schedule` normalizes every slot datetime to UTC and sorts
ascending (the sorted list `r₀ :: rest` is a permutation of the normalized
records and is datetime-ascending), and then applies, in order: (a) a
deadline earlier than the earliest slot returns the earliest slot with its
datetime overridden to the deadline; (b) otherwise, with `F` the slots between
the start of the current hour and the deadline, (c) an empty `F` returns the
last slot with its datetime overridden to the deadline truncated to the hour,
and (d) a non-empty `F` returns a slot of `F` of minimal priority, ties broken
by earlier datetime; finally, `find_optimal_slot` clamps a deadline earlier
than now up to now before selecting. -/
theorem filter_schedule_selection
    (recs : List RawRec) (dl now : Int) (r₀ : Rec) (rest : List Rec)
    (hsort : pysort dtLE (recs.map normRec) = r₀ :: rest) :
    (List.Perm (r₀ :: rest) (recs.map normRec)
      ∧ (r₀ :: rest).Pairwise (fun a b => a.datetime ≤ b.datetime))
    ∧ (dl < r₀.datetime →
        filter_schedule (some recs) dl now = some { r₀ with datetime := dl })
    ∧ (¬ dl < r₀.datetime → (r₀ :: rest).filter (slotPred dl now) = [] →
        filter_schedule (some recs) dl now =
          some { (r₀ :: rest).getLast (List.cons_ne_nil r₀ rest) with
                   datetime := truncHour dl })
    ∧ (¬ dl < r₀.datetime → (r₀ :: rest).filter (slotPred dl now) ≠ [] →
        ∃ f, filter_schedule (some recs) dl now = some f
          ∧ f ∈ (r₀ :: rest).filter (slotPred dl now)
          ∧ (∀ s ∈ (r₀ :: rest).filter (slotPred dl now), f.priority ≤ s.priority)
          ∧ (∀ s ∈ (r₀ :: rest).filter (slotPred dl now),
               s.priority = f.priority → f.datetime ≤ s.datetime))
    ∧ (∀ d, d < now →
        find_optimal_slot (some recs) (some d) now =
          match filter_schedule (some recs) now now with
          | none => .ok (.failedDict "filter_schedule raised")
          | some r => .ok (.slot r "false")) := by
  have hpair : (r₀ :: rest).Pairwise (fun a b : Rec => a.datetime ≤ b.datetime) := by
    have := pysort_pairwise dtLE dtLE_trans dtLE_total (recs.map normRec)
    rw [hsort] at this
    exact this.imp (fun h => by simpa [dtLE] using h)
  refine ⟨⟨by rw [← hsort]; exact pysort_perm _ _, hpair⟩, ?_, ?_, ?_, ?_⟩
  · intro h
    simp only [filter_schedule, hsort]
    rw [if_pos h]
  · intro h1 h2
    simp only [filter_schedule, hsort]
    rw [if_neg h1, h2]
    rfl
  · intro h1 h2
    rcases hF : pysort priLE ((r₀ :: rest).filter (slotPred dl now)) with _ | ⟨f, fs⟩
    · exfalso
      apply h2
      have := pysort_length priLE ((r₀ :: rest).filter (slotPred dl now))
      rw [hF] at this
      exact List.length_eq_zero.mp this.symm
    · refine ⟨f, ?_, ?_, ?_, ?_⟩
      · simp only [filter_schedule, hsort]
        rw [if_neg h1, hF]
      · have : f ∈ pysort priLE ((r₀ :: rest).filter (slotPred dl now)) := by
          rw [hF]; exact List.mem_cons_self f fs
        exact mem_pysort.mp this
      · intro s hs
        obtain ⟨i, hi, hFi, _hfirst, hmin⟩ :=
          pysort_head_first_min priLE_trans priLE_total hF
        obtain ⟨j, hj, hFj⟩ := List.mem_iff_getElem.mp hs
        have := hmin j hj
        rw [hFj] at this
        simpa [priLE] using this
      · intro s hs hpri
        obtain ⟨i, hi, hFi, hfirst, hmin⟩ :=
          pysort_head_first_min priLE_trans priLE_total hF
        obtain ⟨j, hj, hFj⟩ := List.mem_iff_getElem.mp hs
        have hFpair : ((r₀ :: rest).filter (slotPred dl now)).Pairwise
            (fun a b : Rec => a.datetime ≤ b.datetime) :=
          hpair.filter (slotPred dl now)
        rcases lt_trichotomy j i with hji | hji | hji
        · exfalso
          have := hfirst j hj hji
          rw [hFj] at this
          simp [priLE] at this
          omega
        · subst hji
          rw [hFj] at hFi
          rw [hFi]
        · have := List.pairwise_iff_getElem.mp hFpair i j hi hj hji
          rw [hFi, hFj] at this
          exact this
  · intro d hd
    simp only [find_optimal_slot]
    rw [if_pos hd]

/-- C2 witness: a concrete selection in which the deadline precedes the
earliest normalized slot, resolved by the theorem. -/
theorem filter_schedule_selection_witness :
    filter_schedule
      (some [⟨⟨180, some 60⟩, 1, "r1", 50, some "u1"⟩,
             ⟨⟨60, none⟩, 2, "r2", 100, some "u2"⟩])
      30 130 = some ⟨30, 2, "r2", 100, some "u2"⟩ :=
  (filter_schedule_selection
    [⟨⟨180, some 60⟩, 1, "r1", 50, some "u1"⟩, ⟨⟨60, none⟩, 2, "r2", 100, some "u2"⟩]
    30 130 ⟨60, 2, "r2", 100, some "u2"⟩ [⟨120, 1, "r1", 50, some "u1"⟩]
    (by decide)).2.1 (by decide)

/-- C9 (amended): the dispatcher handler returns status 400 when
`function_name` is missing or empty, when `delay` is present but lowercases to
neither "true" nor "false", and when `delay` is absent or "true" while the
deadline is absent or not parseable as ISO-8601. When the schedule of the
function is not found, however, the handler does NOT return a 404 response:
the exception escapes (local loader: `KeyError` on the empty dict; cloud
loader: the download raises), and in the clamped-deadline path the 404-shaped
dict built inside `find_optimal_slot` is fed back into `schedule_function`,
whose `slot["region"]` access raises `KeyError`. -/
theorem handler_status_codes (sched : Option (List RawRec)) (now : Int) :
    (∀ dl ddl, handler ⟨none, dl, ddl⟩ sched now =
        .ok (.error400 "Missing function_name"))
    ∧ (∀ dl ddl, handler ⟨some "", dl, ddl⟩ sched now =
        .ok (.error400 "Missing function_name"))
    ∧ (∀ name s ddl, name ≠ "" → pyLower s ≠ "true" → pyLower s ≠ "false" →
        handler ⟨some name, some s, ddl⟩ sched now =
          .ok (.error400 ("Delay must be true or false, but was " ++ s)))
    ∧ (∀ name, name ≠ "" →
        handler ⟨some name, none, none⟩ sched now =
          .ok (.error400 "Delay was true but no deadline was given"))
    ∧ (∀ name s, name ≠ "" → pyLower s = "true" →
        handler ⟨some name, some s, none⟩ sched now =
          .ok (.error400 "Delay was true but no deadline was given"))
    ∧ (∀ name, name ≠ "" →
        handler ⟨some name, none, some none⟩ sched now =
          .ok (.error400 "Deadline has invalid format"))
    ∧ (∀ name d, name ≠ "" →
        handler ⟨some name, none, some (some d)⟩ none now = .error ()) := by
  refine ⟨fun dl ddl => rfl, fun dl ddl => by simp [handler], ?_, ?_, ?_, ?_, ?_⟩
  · intro name s ddl h1 h2 h3
    simp [handler, h1, h2, h3]
  · intro name h1
    simp [handler, h1]
  · intro name s h1 h2
    simp [handler, h1, h2]
  · intro name h1
    simp [handler, h1]
  · intro name d h1
    by_cases hd : handler_parse_deadline d < now
    · simp [handler, h1, find_optimal_slot, hd, filter_schedule, schedule_function]
    · simp [handler, h1, find_optimal_slot, hd, filter_schedule]

/-- C9 witness: a present `delay` value that is neither true nor false is
rejected with status 400, resolved by the theorem. -/
theorem handler_status_codes_witness :
    handler ⟨some "f", some "Maybe", none⟩ none 5 =
      .ok (.error400 "Delay must be true or false, but was Maybe") :=
  (handler_status_codes none 5).2.2.1 "f" "Maybe" none
    (by decide) (by decide) (by decide)

/-- C9 counterexample: a valid dispatch event for a function whose schedule is
not found makes the handler raise an uncaught exception instead of returning a
404 response, refuting the 404 part of the claim. -/
theorem handler_missing_schedule_no_404 :
    handler ⟨some "f", none, some (some ⟨1000, none⟩)⟩ none 0 =
      Except.error () := rfl

/-- C10: the deadline parse of the handler keeps the wall-clock fields and
discards an explicit UTC offset, so an aware deadline string is reinterpreted
as UTC: the effective deadline differs (by the offset) from the instant the
string denotes, which `normalize_to_utc` would compute. -/
theorem handler_deadline_offset_discarded (w off : Int) (hoff : off ≠ 0) :
    handler_parse_deadline ⟨w, some off⟩ = w
    ∧ normalize_to_utc ⟨w, some off⟩ = w - off
    ∧ handler_parse_deadline ⟨w, some off⟩ ≠ normalize_to_utc ⟨w, some off⟩ := by
  refine ⟨rfl, rfl, ?_⟩
  simp only [handler_parse_deadline, normalize_to_utc]
  omega

/-- C10 witness: the wall clock 12:00 with offset +02:00 (in minutes) is
parsed as 12:00 UTC, two hours after the denoted instant 10:00 UTC. -/
theorem handler_deadline_offset_discarded_witness :
    handler_parse_deadline ⟨720, some 120⟩ = 720
    ∧ normalize_to_utc ⟨720, some 120⟩ = 720 - 120
    ∧ handler_parse_deadline ⟨720, some 120⟩ ≠ normalize_to_utc ⟨720, some 120⟩ :=
  handler_deadline_offset_discarded 720 120 (by decide)

/-- C6: two metadata records that differ only in the ordering of
`allowed_regions` or in the value of `allow_schedule_caching` hash equally:
`allow_schedule_caching` is not among the hashed fields (no hypothesis below
relates the two values) and `allowed_regions` enters the hashed string as a
sorted sequence. -/
theorem compute_metadata_hash_canonical
    (sha : String → String) (m₁ m₂ : Metadata)
    (hperm : List.Perm m₁.allowed_regions m₂.allowed_regions)
    (h₁ : m₁.runtime_ms = m₂.runtime_ms)
    (h₂ : m₁.memory_mb = m₂.memory_mb)
    (h₃ : m₁.data_input_gb = m₂.data_input_gb)
    (h₄ : m₁.data_output_gb = m₂.data_output_gb)
    (h₅ : m₁.source_location = m₂.source_location)
    (h₆ : m₁.invocations_per_day = m₂.invocations_per_day)
    (h₇ : m₁.priority = m₂.priority)
    (h₈ : m₁.latency_important = m₂.latency_important)
    (h₉ : m₁.gpu_required = m₂.gpu_required)
    (h₁₀ : m₁.vcpus = m₂.vcpus) :
    compute_metadata_hash sha m₁ = compute_metadata_hash sha m₂ := by
  have hsortEq : pysort strLe m₁.allowed_regions = pysort strLe m₂.allowed_regions :=
    pysort_eq_of_perm strLe_trans strLe_total strLe_antisymm hperm
  simp only [compute_metadata_hash, hsortEq, h₁, h₂, h₃, h₄, h₅, h₆, h₇, h₈, h₉, h₁₀]

/-- C6 witness: permuting `allowed_regions` and flipping
`allow_schedule_caching` leaves the hash unchanged, resolved by the
theorem with `sha` instantiated to the identity. -/

theorem compute_metadata_hash_canonical_witness :
    compute_metadata_hash (fun s => s) demoMetadata =
      compute_metadata_hash (fun s => s)
        { demoMetadata with
            allowed_regions := ["europe-north1", "europe-west1"]
            allow_schedule_caching := false } :=
  compute_metadata_hash_canonical (fun s => s) _ _
    (List.Perm.swap "europe-north1" "europe-west1" [])
    rfl rfl rfl rfl rfl rfl rfl rfl rfl rfl

/-- C3 (amended): the cached schedule is reused iff `allow_schedule_caching`
holds, the persisted schedule is readable, its stored hash equals the hash of
the resolved metadata, `created_at` is present and parseable, and the WHOLE
DAYS of the age, `floor((now - created_at) / 86400)`, are at most
`MAX_FORECAST_AGE_DAYS` - equivalently `now - created_at < 8 days`, not the
claimed `at most 7 days`. -/
theorem is_cached_schedule_valid_iff (sha : String → String)
    (fn : String) (md : Metadata) (stored : Option Schedule) (now : Int) :
    (is_cached_schedule_valid sha fn md stored now).1 = true ↔
      md.allow_schedule_caching = true
      ∧ ∃ sched, stored = some sched
        ∧ sched.metadata.bind (fun m => m.metadata_hash) =
            some (compute_metadata_hash sha md)
        ∧ ∃ created, sched.metadata.bind (fun m => m.created_at) = some created
          ∧ (now - created).fdiv 86400 ≤ MAX_FORECAST_AGE_DAYS := by
  by_cases hA : md.allow_schedule_caching
  · cases stored with
    | none => simp [is_cached_schedule_valid, hA]
    | some sched =>
      by_cases hH : sched.metadata.bind (fun m => m.metadata_hash) =
          some (compute_metadata_hash sha md)
      · cases hC : sched.metadata.bind (fun m => m.created_at) with
        | none => simp [is_cached_schedule_valid, hA, hH, hC]
        | some created =>
          by_cases hAge : (now - created).fdiv 86400 > MAX_FORECAST_AGE_DAYS
          · simp only [is_cached_schedule_valid, hA, not_true, if_false, hH,
              ne_eq, not_not, if_true, hC, if_pos hAge]
            simp [hH, hC]
            omega
          · simp only [is_cached_schedule_valid, hA, not_true, if_false, hH,
              ne_eq, not_not, if_true, hC, if_neg hAge]
            simp [hA, hH, hC]
            omega
      · simp [is_cached_schedule_valid, hA, hH]
  · simp [is_cached_schedule_valid, hA]

/-- C3 counterexample: at age 7 days 12 hours (648000 seconds) the cache is
still reused, because the source compares WHOLE days (`timedelta.days`,
`7 > 7` is false) - yet `now - created_at` exceeds 7 days, refuting the
claimed `now - created_at ≤ MAX_FORECAST_AGE_DAYS` bound. -/
theorem cache_age_window_counterexample :
    (is_cached_schedule_valid (fun _ => "H") "f" demoMetadata
        (some demoCachedSchedule) 648000).1 = true
    ∧ ¬ ((648000 : Int) - 0 ≤ MAX_FORECAST_AGE_DAYS * 86400) := by
  constructor
  · rfl
  · decide

/-- C8: a cache-hit refresh re-stamps every recommendation datetime to today
while keeping the time of day, leaves every other recommendation field
unchanged (the record update touches only `datetime`, and the new `datetime`
keeps `tod`), and of the schedule metadata updates only `generated_at`. -/
theorem refresh_preserves_ranking (sched : Schedule) (m : SchedMeta)
    (today now : Int) (hm : sched.metadata = some m) :
    refresh_cached_schedule sched today now =
      some { recommendations :=
               sched.recommendations.map
                 (fun r => { r with datetime := ⟨today, r.datetime.tod⟩ })
             metadata := some { m with generated_at := now } } := by
  simp [refresh_cached_schedule, hm]

/-- C8 witness: refreshing a concrete cached schedule on day 42 re-stamps the
three dates to 42, keeps the times 300, 360, 420 and all other fields, and
updates only `generated_at`, resolved by the theorem. -/
theorem refresh_preserves_ranking_witness :
    refresh_cached_schedule
      { recommendations := demoRecommendations
        metadata := some { generated_at := 5, function_metadata := demoMetadata
                           regions_used := ["europe-west1"]
                           metadata_hash := some "H", created_at := some 5 } }
      42 99 =
    some { recommendations :=
             demoRecommendations.map
               (fun r => { r with datetime := ⟨42, r.datetime.tod⟩ })
           metadata := some { generated_at := 99
                              function_metadata := demoMetadata
                              regions_used := ["europe-west1"]
                              metadata_hash := some "H", created_at := some 5 } } :=
  refresh_preserves_ranking _ _ 42 99 rfl

/-- C1 (amended): a new schedule is persisted as `schedule_<fn>.json` exactly
when the LLM response parses as JSON after fence stripping; the parsed
document is persisted with its metadata block attached and WITHOUT any
validation of its recommendation count, priorities, regions or datetimes.
When the parse fails, the exception is caught per function and the store -
in particular any previously persisted schedule - is left unchanged. -/
theorem schedule_persisted_iff_parse (sha : String → String)
    (parse : String → Option Schedule) (response_text : String)
    (fn : String) (md : Metadata) (regions : List String)
    (metadata_hash : Option String) (now : Int) (store : Store) :
    (∀ s, generate_with_gemini parse response_text = some s →
        schedule_generation_step sha parse response_text fn md regions
            metadata_hash now store =
          ("schedule_" ++ fn ++ ".json",
            { recommendations := s.recommendations
              metadata := some
                { generated_at := now
                  function_metadata := md
                  regions_used := regions
                  metadata_hash := some (match metadata_hash with
                    | some h => h
                    | none => compute_metadata_hash sha md)
                  created_at := some now } }) :: store)
    ∧ (generate_with_gemini parse response_text = none →
        schedule_generation_step sha parse response_text fn md regions
            metadata_hash now store = store) := by
  constructor
  · intro s hs
    simp [schedule_generation_step, run_scheduler_for_function, hs,
      write_to_storage]
  · intro hs
    simp [schedule_generation_step, run_scheduler_for_function, hs]

/-- C1 counterexample: an LLM response that parses to a document with THREE
recommendations whose priorities (1, 1, 7) are not the permutation 1..24 is
persisted as `schedule_f.json` all the same, refuting the claimed
`only if ... exactly 24 recommendations ... permutation 1..24` condition. -/
theorem ranking_validation_counterexample :
    List.lookup "schedule_f.json"
      (schedule_generation_step (fun _ => "H")
        (fun _ => some { recommendations := demoRecommendations, metadata := none })
        "[ranking]" "f" demoMetadata ["europe-west1"] (some "h0") 0 []) =
      some demoBadPersisted
    ∧ demoBadPersisted.recommendations.length = 3
    ∧ (demoBadPersisted.recommendations.map (fun r => r.priority)) = [1, 1, 7] := by
  refine ⟨?_, rfl, rfl⟩
  rfl

/-- C1 witness: the amended theorem applied to a parse failure, showing the
store (holding a previous schedule for `f`) unchanged. -/
theorem schedule_persisted_iff_parse_witness :
    schedule_generation_step (fun _ => "H") (fun _ => none) "not json" "f"
      demoMetadata ["europe-west1"] (some "h0") 0
      [("schedule_f.json", demoBadPersisted)] =
    [("schedule_f.json", demoBadPersisted)] :=
  (schedule_persisted_iff_parse (fun _ => "H") (fun _ => none) "not json" "f"
    demoMetadata ["europe-west1"] (some "h0") 0
    [("schedule_f.json", demoBadPersisted)]).2 rfl

/-- C4: with a region code as source location, the transfer cost is 0 when
the target region equals the source location, and otherwise is the total
data volume times the data-transfer rate the static configuration holds for
the target region. -/
theorem calculate_transfer_cost_spec (region_code source_location : String)
    (data_input_gb data_output_gb : ℚ) (config : StaticConfig)
    (_hin : 0 ≤ data_input_gb) (_hout : 0 ≤ data_output_gb)
    (hsrc : source_location ≠ "") :
    (region_code = source_location →
      calculate_transfer_cost region_code data_input_gb data_output_gb
        source_location config = 0)
    ∧ (region_code ≠ source_location → ∀ ri rate,
        config.regions.lookup region_code = some ri →
        ri.data_transfer_cost_per_gb_usd = some rate →
        calculate_transfer_cost region_code data_input_gb data_output_gb
          source_location config = (data_input_gb + data_output_gb) * rate) := by
  constructor
  · intro heq
    simp [calculate_transfer_cost, hsrc, heq]
  · intro hne ri rate hri hrate
    simp [calculate_transfer_cost, hne, get_region_info, hri, hrate]

/-- C4 witness: for data volumes 10 and 5 GB from `us-east1`, the cost in the
source region is 0 and the cost in `europe-west1` is 15 times its rate,
resolved by the theorem. -/
theorem calculate_transfer_cost_spec_witness :
    calculate_transfer_cost "us-east1" 10 5 "us-east1" demoConfig = 0
    ∧ calculate_transfer_cost "europe-west1" 10 5 "us-east1" demoConfig =
        (10 + 5) * (2 / 25) := by
  constructor
  · exact (calculate_transfer_cost_spec "us-east1" "us-east1" 10 5 demoConfig
      (by norm_num) (by norm_num) (by decide)).1 rfl
  · exact (calculate_transfer_cost_spec "europe-west1" "us-east1" 10 5 demoConfig
      (by norm_num) (by norm_num) (by decide)).2 (by decide) ⟨some (2 / 25)⟩
      (2 / 25) rfl rfl

/-- C5 counterexample: with the deployed constants (single-watt 2.5 W at
utilization 0.5 next to CCF bounds 0.71 W and 4.26 W), the CPU power term the
energy model computes for one vCPU is 1.25 W, while the claimed CCF formula
over the same configuration gives 2.485 W; the two differ, refuting the
claim. -/
theorem cpu_power_formula_counterexample :
    cpu_power_w demoConfig.power_constants 1 = 5 / 4
    ∧ cpu_power_w_ccf 1 (demoConfig.power_constants.cpu_min_watts_per_vcpu.getD 0)
        (demoConfig.power_constants.cpu_max_watts_per_vcpu.getD 0)
        (demoConfig.power_constants.cpu_utilization_factor.getD (1 / 2)) = 497 / 200
    ∧ cpu_power_w demoConfig.power_constants 1 ≠
        cpu_power_w_ccf 1 (demoConfig.power_constants.cpu_min_watts_per_vcpu.getD 0)
          (demoConfig.power_constants.cpu_max_watts_per_vcpu.getD 0)
          (demoConfig.power_constants.cpu_utilization_factor.getD (1 / 2)) := by
  refine ⟨?_, ?_, ?_⟩ <;>
    norm_num [cpu_power_w, cpu_power_w_ccf, demoConfig]

/-- C5 (amended): the CPU power term of the energy model is the single-watt
model `vcpus * cpu_watts_per_vcpu * cpu_utilization_factor` (defaults 2.5 W,
0.5), not the CCF min/max formula: adding one vCPU raises the emissions by
exactly `cpu_watts_per_vcpu * cpu_utilization_factor` watts of compute power,
and the CCF constants `cpu_min_watts_per_vcpu` / `cpu_max_watts_per_vcpu` of
the configuration are never consulted. -/
theorem cpu_power_single_watt_model (config : StaticConfig)
    (runtime_ms memory_mb data_input_gb data_output_gb carbon_intensity : ℚ)
    (vcpus gpu_count : ℕ) (gpu_type : String) (m₁ m₂ : Option ℚ) :
    (calculate_emissions_per_execution runtime_ms memory_mb data_input_gb
        data_output_gb carbon_intensity config (vcpus + 1) gpu_count gpu_type
      - calculate_emissions_per_execution runtime_ms memory_mb data_input_gb
          data_output_gb carbon_intensity config vcpus gpu_count gpu_type
      = (config.power_constants.cpu_watts_per_vcpu.getD (5 / 2) *
          config.power_constants.cpu_utilization_factor.getD (1 / 2)) *
          ((runtime_ms / 1000) / 3600) *
          config.power_constants.datacenter_pue.getD (11 / 10) *
          carbon_intensity)
    ∧ (calculate_emissions_per_execution runtime_ms memory_mb data_input_gb
        data_output_gb carbon_intensity
        { config with power_constants :=
            { config.power_constants with
                cpu_min_watts_per_vcpu := m₁
                cpu_max_watts_per_vcpu := m₂ } }
        vcpus gpu_count gpu_type
      = calculate_emissions_per_execution runtime_ms memory_mb data_input_gb
          data_output_gb carbon_intensity config vcpus gpu_count gpu_type) := by
  constructor
  · simp only [calculate_emissions_per_execution, compute_energy_kwh,
      cpu_power_w, memory_power_w, gpu_power_w, transfer_energy_kwh]
    push_cast
    ring
  · rfl

/-- C7 (amended): with strictly positive power constants and PUE, at least
one vCPU, nonnegative memory and nonnegative GPU constants, increasing
`runtime_ms` strictly increases the compute energy; increasing `memory_mb`
strictly increases it PROVIDED the runtime is positive (at runtime 0 the
compute energy is 0 whatever the memory); and increasing
`data_input_gb + data_output_gb` strictly increases the transfer energy. -/
theorem energy_monotonicity (pc : PowerConstants) (gpu_count : ℕ)
    (gpu_type : String) (memory_mb : ℚ) (vcpus : ℕ)
    (hw : 0 < pc.cpu_watts_per_vcpu.getD (5 / 2))
    (hu : 0 < pc.cpu_utilization_factor.getD (1 / 2))
    (hm : 0 < pc.memory_watts_per_gib.getD (2 / 5))
    (hp : 0 < pc.datacenter_pue.getD (11 / 10))
    (hn : 0 < pc.network_kwh_per_gb.getD (1 / 500))
    (hgt : 0 ≤ (pc.gpu_tdp_watts.lookup gpu_type).getD 72)
    (hgu : 0 ≤ pc.gpu_utilization_factor.getD (4 / 5))
    (hv : 1 ≤ vcpus) (hmem : 0 ≤ memory_mb) :
    (∀ r₁ r₂ : ℚ, r₁ < r₂ →
        compute_energy_kwh pc r₁ memory_mb vcpus gpu_count gpu_type <
          compute_energy_kwh pc r₂ memory_mb vcpus gpu_count gpu_type)
    ∧ (∀ m₁ m₂ r : ℚ, 0 < r → m₁ < m₂ →
        compute_energy_kwh pc r m₁ vcpus gpu_count gpu_type <
          compute_energy_kwh pc r m₂ vcpus gpu_count gpu_type)
    ∧ (∀ d₁ o₁ d₂ o₂ : ℚ, d₁ + o₁ < d₂ + o₂ →
        transfer_energy_kwh pc d₁ o₁ < transfer_energy_kwh pc d₂ o₂) := by
  have hvq : (1 : ℚ) ≤ (vcpus : ℚ) := by exact_mod_cast hv
  have hcpu : 0 < cpu_power_w pc vcpus := by
    unfold cpu_power_w
    have h0 : (0 : ℚ) < (vcpus : ℚ) := lt_of_lt_of_le one_pos hvq
    exact mul_pos (mul_pos h0 hw) hu
  have hmempow : 0 ≤ memory_power_w pc memory_mb := by
    unfold memory_power_w
    exact mul_nonneg (by positivity) hm.le
  have hgpu : 0 ≤ gpu_power_w pc gpu_count gpu_type := by
    unfold gpu_power_w
    split
    · exact mul_nonneg (mul_nonneg (by positivity) hgt) hgu
    · exact le_refl 0
  have hP : 0 < cpu_power_w pc vcpus + memory_power_w pc memory_mb +
      gpu_power_w pc gpu_count gpu_type := by linarith
  refine ⟨?_, ?_, ?_⟩
  · intro r₁ r₂ hr
    unfold compute_energy_kwh
    have key := mul_pos (mul_pos hP hp) (sub_pos.mpr hr)
    nlinarith [key]
  · intro m₁ m₂ r hr hm12
    unfold compute_energy_kwh
    unfold memory_power_w
    have key := mul_pos (mul_pos (mul_pos (sub_pos.mpr hm12) hm) hr) hp
    nlinarith [key]
  · intro d₁ o₁ d₂ o₂ h
    unfold transfer_energy_kwh
    exact mul_lt_mul_of_pos_right h hn

/-- C7 counterexample: with the strictly positive constants of `demoConfig`,
at runtime 0 the compute energy is 0 both at 512 MB and at 1024 MB, so
increasing `memory_mb` does NOT strictly increase the compute energy,
refuting the claim as stated. -/
theorem energy_monotonicity_counterexample :
    ((512 : ℚ) < 1024)
    ∧ 0 < demoConfig.power_constants.cpu_watts_per_vcpu.getD (5 / 2)
    ∧ 0 < demoConfig.power_constants.cpu_utilization_factor.getD (1 / 2)
    ∧ 0 < demoConfig.power_constants.memory_watts_per_gib.getD (2 / 5)
    ∧ 0 < demoConfig.power_constants.datacenter_pue.getD (11 / 10)
    ∧ 0 < demoConfig.power_constants.network_kwh_per_gb.getD (1 / 500)
    ∧ compute_energy_kwh demoConfig.power_constants 0 512 1 0 "nvidia-l4" =
        compute_energy_kwh demoConfig.power_constants 0 1024 1 0 "nvidia-l4" := by
  refine ⟨by norm_num, ?_, ?_, ?_, ?_, ?_, ?_⟩ <;>
    norm_num [demoConfig, compute_energy_kwh, cpu_power_w, memory_power_w,
      gpu_power_w]

/-- C7 witness: the three strict monotonicities at concrete inputs over
`demoConfig`, resolved by the theorem. -/
theorem energy_monotonicity_witness :
    compute_energy_kwh demoConfig.power_constants 1000 512 1 0 "nvidia-l4" <
      compute_energy_kwh demoConfig.power_constants 2000 512 1 0 "nvidia-l4"
    ∧ compute_energy_kwh demoConfig.power_constants 1000 512 1 0 "nvidia-l4" <
        compute_energy_kwh demoConfig.power_constants 1000 1024 1 0 "nvidia-l4"
    ∧ transfer_energy_kwh demoConfig.power_constants 1 0 <
        transfer_energy_kwh demoConfig.power_constants 1 1 := by
  obtain ⟨h₁, h₂, h₃⟩ :=
    energy_monotonicity demoConfig.power_constants 0 "nvidia-l4" 512 1
      (by norm_num [demoConfig]) (by norm_num [demoConfig])
      (by norm_num [demoConfig]) (by norm_num [demoConfig])
      (by norm_num [demoConfig]) (by norm_num [demoConfig])
      (by norm_num [demoConfig]) (by norm_num) (by norm_num)
  exact ⟨h₁ 1000 2000 (by norm_num), h₂ 512 1024 1000 (by norm_num) (by norm_num),
    h₃ 1 0 1 1 (by norm_num)⟩

end CarbonSched
